import Mathlib

/-!
Shallow embedding of `src/bluetooth_led_matrix/displayClass.h` from the
led-handbag repository, together with theorems checking the specification's
claims about the scrolling-text queue (`StringUnitBuffer` / `StringUnit`),
palette cycling (`DisplayMatrix`) and the text-display predicate (`DrawText`).

Modelling conventions:
* `uint8_t` / `uint16_t` values are `Nat`; every arithmetic step of the source
  is reproduced with its explicit `% MAX_STRING_BUFFER_SIZE` (resp. `% numPalettes`)
  where the source has one.  No other arithmetic in the modelled code can
  overflow an 8-bit store under the bounds proved below.
* C strings / Arduino `String` become Lean `String`; `strlen` becomes
  `String.length`.
* The fixed 64-slot array `_sBuffer` becomes a total map `Nat → StringUnit`;
  the cursors are proved to stay below 64, so all accesses of the source are
  in range.
* Out-parameter style (`popFirst(char* buf, uint8_t* colorIndex) -> boolean`)
  becomes `Option (state × outputs)`: `none` models `return false` with no
  write to the caller's buffers and no state change.
-/

namespace LedHandbag

/-- `#define MAX_STRING_LENGTH 256` (displayClass.h line 69). -/
def MAX_STRING_LENGTH : Nat := 256

/-- `#define MAX_STRING_BUFFER_SIZE 64` (displayClass.h line 91). -/
def MAX_STRING_BUFFER_SIZE : Nat := 64

/-- The five FastLED palettes of `matrixPaletteList` (line 9), treated as
opaque values: the palette content is out of scope, only identity matters. -/
inductive CRGBPalette16 where
  | RainbowColors_p
  | CloudColors_p
  | PartyColors_p
  | OceanColors_p
  | LavaColors_p
deriving DecidableEq

/-- `static CRGBPalette16 matrixPaletteList[] = {...}` (line 9). -/
def matrixPaletteList : List CRGBPalette16 :=
  [.RainbowColors_p, .CloudColors_p, .PartyColors_p, .OceanColors_p, .LavaColors_p]

/-- `static const int numPalettes = sizeof(...)/sizeof(...)` (line 10). -/
def numPalettes : Nat := matrixPaletteList.length

/-- Helper class `StringUnit` (lines 70-85): a string, a repeat count and a
color index.  Fields keep the source's names. -/
structure StringUnit where
  _str : String
  _repeat : Nat
  _colorIndex : Nat
deriving DecidableEq

/-- Default constructor `StringUnit()` (line 73). -/
def StringUnit.new : StringUnit := { _str := "", _repeat := 0, _colorIndex := 0 }

/-- `setValues` (line 74): the string is copied only when `strlen(str) <
MAX_STRING_LENGTH`; the repeat count and color index are assigned
unconditionally. -/
def StringUnit.setValues (u : StringUnit) (str : String) (rep colorIndex : Nat) :
    StringUnit :=
  { _str := if str.length < MAX_STRING_LENGTH then str else u._str,
    _repeat := rep,
    _colorIndex := colorIndex }

/-- `getRepeat` (line 75). -/
def StringUnit.getRepeat (u : StringUnit) : Nat := u._repeat

/-- `setRepeat` (line 76): the source assigns `_repeat = _repeat`, ignoring
its argument. -/
def StringUnit.setRepeat (u : StringUnit) (rep : Nat) : StringUnit :=
  { u with _repeat := u._repeat }

/-- `setString` (line 77). -/
def StringUnit.setString (u : StringUnit) (str : String) : StringUnit :=
  if str.length < MAX_STRING_LENGTH then { u with _str := str } else u

/-- `copyString` (line 78): the string handed back to the caller's buffer. -/
def StringUnit.copyString (u : StringUnit) : String := u._str

/-- `getColorIndex` (line 79). -/
def StringUnit.getColorIndex (u : StringUnit) : Nat := u._colorIndex

/-- Circular buffer `StringUnitBuffer` (lines 92-136).  `_first` is the head
(oldest unread), `_last` the tail (next free slot); `_current` and `_delayMS`
are declared in the source but never used by any of its methods. -/
structure StringUnitBuffer where
  _sBuffer : Nat → StringUnit
  _first : Nat
  _last : Nat
  _current : Nat
  _delayMS : Nat

/-- Constructor `StringUnitBuffer()` (line 95): cursors start at 0; the slot
array is default-constructed `StringUnit`s; `_delayMS` is left
uninitialized in the source, modelled as 0. -/
def StringUnitBuffer.new : StringUnitBuffer :=
  { _sBuffer := fun _ => StringUnit.new, _first := 0, _last := 0,
    _current := 0, _delayMS := 0 }

/-- `isEmpty` (line 96). -/
def StringUnitBuffer.isEmpty (b : StringUnitBuffer) : Bool :=
  if b._last == b._first then true else false

/-- `isFull` (line 97). -/
def StringUnitBuffer.isFull (b : StringUnitBuffer) : Bool :=
  if (b._last + 1) % MAX_STRING_BUFFER_SIZE == b._first then true else false

/-- `push` (lines 100-106): fails on a full buffer, otherwise writes the slot
at `_last` through `setValues` and advances `_last` modulo the capacity. -/
def StringUnitBuffer.push (b : StringUnitBuffer) (str : String)
    (rep colorIndex : Nat) : Bool × StringUnitBuffer :=
  if b.isFull then (false, b)
  else
    (true,
      { b with
        _sBuffer :=
          Function.update b._sBuffer b._last
            ((b._sBuffer b._last).setValues str rep colorIndex),
        _last := (b._last + 1) % MAX_STRING_BUFFER_SIZE })

/-- `popFirst` (lines 109-125): fails on an empty buffer; otherwise copies the
string and color index of the slot at `_first`, advances `_first`, and when
the popped repeat count exceeds 1 re-pushes the copied string with the
decremented count (the inner push's boolean is discarded by the source). -/
def StringUnitBuffer.popFirst (b : StringUnitBuffer) :
    Option (StringUnitBuffer × String × Nat) :=
  if b.isEmpty then none
  else
    let buf := (b._sBuffer b._first).copyString
    let colorIndex := (b._sBuffer b._first).getColorIndex
    let repeatCount := (b._sBuffer b._first).getRepeat
    let b1 := { b with _first := (b._first + 1) % MAX_STRING_BUFFER_SIZE }
    let b2 := if repeatCount > 1 then (b1.push buf (repeatCount - 1) colorIndex).2 else b1
    some (b2, buf, colorIndex)

/-- `nElements` (line 126). -/
def StringUnitBuffer.nElements (b : StringUnitBuffer) : Nat :=
  if b._last < b._first then MAX_STRING_BUFFER_SIZE + b._last - b._first
  else b._last - b._first

/-- The while loop of `getFirstIndex` (line 127), with explicit fuel: the
source loop advances `_first` modulo the 64-slot capacity and must stop
within 64 steps (it stops at the latest when `_first` reaches `_last`),
so fuel `MAX_STRING_BUFFER_SIZE` reproduces it exactly on in-range cursors. -/
def getFirstIndexAux (sB : Nat → StringUnit) (last : Nat) :
    Nat → Nat → Nat
  | 0, first => first
  | fuel + 1, first =>
    if (sB first).getRepeat == 0 && first != last then
      getFirstIndexAux sB last fuel ((first + 1) % MAX_STRING_BUFFER_SIZE)
    else first

/-- `getFirstIndex` (line 127): advances `_first` past repeat-0 entries and
returns the new `_first`.  It mutates the buffer, so the model returns the
updated state together with the returned index. -/
def StringUnitBuffer.getFirstIndex (b : StringUnitBuffer) :
    StringUnitBuffer × Nat :=
  let f := getFirstIndexAux b._sBuffer b._last MAX_STRING_BUFFER_SIZE b._first
  ({ b with _first := f }, f)

/-- `getLastIndex` (line 128). -/
def StringUnitBuffer.getLastIndex (b : StringUnitBuffer) : Nat := b._last

/-- The palette-relevant state of `DisplayMatrix` (lines 17-63).  The pixel
pointers `_leds`/`_buffer` and the blend mode are hardware-facing and carry
no logic used by the claims; the numeric fields are kept. -/
structure DisplayMatrix where
  _lastUpdateTime : Int
  _width : Nat
  _height : Nat
  _paletteIndex : Nat
  _delayMS : Nat

/-- `getPalette` (line 47): `matrixPaletteList[_paletteIndex]`; the C++ read
is only defined for an in-range index, modelled with a default. -/
def DisplayMatrix.getPalette (d : DisplayMatrix) : CRGBPalette16 :=
  matrixPaletteList.getD d._paletteIndex .RainbowColors_p

/-- `nextPalette` (line 48): `_paletteIndex = (_paletteIndex + 1) % numPalettes`. -/
def DisplayMatrix.nextPalette (d : DisplayMatrix) : DisplayMatrix :=
  { d with _paletteIndex := (d._paletteIndex + 1) % numPalettes }

/-- An RGB color cell (FastLED `CRGB`), content irrelevant to the claims. -/
structure CRGB where
  r : Nat
  g : Nat
  b : Nat
deriving DecidableEq

/-- The queue-facing state of `DrawText` (lines 141-168).  The glyph-column
buffer `_displayBuffer` is kept as a total map; per the source it is only
meaningfully populated up to `_colLen`. -/
structure DrawText where
  _displayBuffer : Nat → Nat
  _colLen : Nat
  _colPtr : Nat
  _color : CRGB
  _textInBuffer : Bool
  _stringBuffer : StringUnitBuffer

/-- `displayingText` (line 149). -/
def DrawText.displayingText (d : DrawText) : Bool :=
  if d._textInBuffer || !d._stringBuffer.isEmpty then true else false

/-- `addStringToBuffer` (line 152): delegates to `push`. -/
def DrawText.addStringToBuffer (d : DrawText) (txt : String)
    (rep colIndex : Nat) : Bool × DrawText :=
  let r := d._stringBuffer.push txt rep colIndex
  (r.1, { d with _stringBuffer := r.2 })

/-- `n` successive pushes of the same short string onto a buffer; used to
count how many pushes a fresh buffer accepts. -/
def pushRepeatedly (b : StringUnitBuffer) : Nat → StringUnitBuffer
  | 0 => b
  | n + 1 => ((pushRepeatedly b n).push "x" 1 0).2

/-- A 256-character string: one character beyond the 255-character maximum
accepted by `setValues`. -/
def longStr : String := String.mk (List.replicate 256 'a')

/-- A concrete stored entry, used to instantiate universally quantified
theorems on explicit inputs. -/
def sampleUnit : StringUnit := ⟨"A", 2, 1⟩

/-- A concrete one-element buffer state (entry `sampleUnit` at slot 0,
`_first = 0`, `_last = 1`). -/
def sampleBuffer : StringUnitBuffer := ⟨fun _ => sampleUnit, 0, 1, 0, 0⟩

/-- A concrete `DisplayMatrix` state with the initial palette selected. -/
def sampleMatrix : DisplayMatrix :=
  { _lastUpdateTime := -1, _width := 8, _height := 8, _paletteIndex := 0,
    _delayMS := 200 }

section HelperLemmas

set_option maxRecDepth 8000

/-- `setValues` stores the whole entry whenever the string is short enough. -/
lemma setValues_short (u : StringUnit) (s : String) (r c : Nat)
    (h : s.length < MAX_STRING_LENGTH) : u.setValues s r c = ⟨s, r, c⟩ := by
  simp [StringUnit.setValues, h]

/-- `push` on a non-full buffer: returns `true`, writes the slot at `_last`
through `setValues` and advances `_last` modulo the capacity. -/
lemma push_notFull (b : StringUnitBuffer) (str : String) (r c : Nat)
    (h : (b._last + 1) % MAX_STRING_BUFFER_SIZE ≠ b._first) :
    b.push str r c = (true,
      ⟨Function.update b._sBuffer b._last ((b._sBuffer b._last).setValues str r c),
        b._first, (b._last + 1) % MAX_STRING_BUFFER_SIZE, b._current, b._delayMS⟩) := by
  simp [StringUnitBuffer.push, StringUnitBuffer.isFull, h]

/-- `push` on a full buffer: returns `false` and the state unchanged. -/
lemma push_full (b : StringUnitBuffer) (str : String) (r c : Nat)
    (h : (b._last + 1) % MAX_STRING_BUFFER_SIZE = b._first) :
    b.push str r c = (false, b) := by
  simp [StringUnitBuffer.push, StringUnitBuffer.isFull, h]

/-- `popFirst` on a nonempty buffer whose head entry has repeat > 1 and a
short string: pops the head entry and, head having been advanced first,
successfully re-pushes it with the decremented count at the tail. -/
lemma popFirst_step (b : StringUnitBuffer)
    (hne : b._last ≠ b._first)
    (hf : b._first < MAX_STRING_BUFFER_SIZE) (hl : b._last < MAX_STRING_BUFFER_SIZE)
    (hr : 1 < (b._sBuffer b._first)._repeat)
    (hlen : (b._sBuffer b._first)._str.length < MAX_STRING_LENGTH) :
    b.popFirst = some
      (⟨Function.update b._sBuffer b._last
          ⟨(b._sBuffer b._first)._str, (b._sBuffer b._first)._repeat - 1,
            (b._sBuffer b._first)._colorIndex⟩,
        (b._first + 1) % MAX_STRING_BUFFER_SIZE,
        (b._last + 1) % MAX_STRING_BUFFER_SIZE, b._current, b._delayMS⟩,
      (b._sBuffer b._first)._str, (b._sBuffer b._first)._colorIndex) := by
  have hne' : b.isEmpty = false := by
    simp [StringUnitBuffer.isEmpty, hne]
  have hfull : (b._last + 1) % MAX_STRING_BUFFER_SIZE
      ≠ (b._first + 1) % MAX_STRING_BUFFER_SIZE := by
    simp only [MAX_STRING_BUFFER_SIZE] at *
    omega
  simp only [StringUnitBuffer.popFirst, hne', Bool.false_eq_true, if_false,
    StringUnit.copyString, StringUnit.getColorIndex, StringUnit.getRepeat,
    StringUnitBuffer.push, StringUnitBuffer.isFull, hr, if_true,
    StringUnit.setValues, hlen]
  simp [hfull, hr]

/-- `popFirst` on a nonempty buffer whose head entry has repeat ≤ 1: pops the
head entry without re-pushing anything. -/
lemma popFirst_last (b : StringUnitBuffer)
    (hne : b._last ≠ b._first)
    (hr : (b._sBuffer b._first)._repeat ≤ 1) :
    b.popFirst = some
      ({ b with _first := (b._first + 1) % MAX_STRING_BUFFER_SIZE },
        (b._sBuffer b._first)._str, (b._sBuffer b._first)._colorIndex) := by
  have hne' : b.isEmpty = false := by
    simp [StringUnitBuffer.isEmpty, hne]
  have hr' : ¬ (1 < (b._sBuffer b._first)._repeat) := by omega
  simp [StringUnitBuffer.popFirst, hne', StringUnit.copyString,
    StringUnit.getColorIndex, StringUnit.getRepeat, hr']

/-- The `getFirstIndex` loop keeps the cursor below the capacity. -/
lemma getFirstIndexAux_lt (sB : Nat → StringUnit) (last : Nat) :
    ∀ fuel first, first < MAX_STRING_BUFFER_SIZE →
      getFirstIndexAux sB last fuel first < MAX_STRING_BUFFER_SIZE := by
  intro fuel
  induction fuel with
  | zero => intro first h; simpa [getFirstIndexAux] using h
  | succ k ih =>
    intro first h
    rw [getFirstIndexAux]
    split
    · exact ih _ (Nat.mod_lt _ (by simp [MAX_STRING_BUFFER_SIZE]))
    · exact h

/-- Cursor positions after `n ≤ 63` pushes onto a fresh buffer. -/
lemma pushRepeatedly_cursors :
    ∀ n, n ≤ 63 →
      (pushRepeatedly StringUnitBuffer.new n)._first = 0 ∧
      (pushRepeatedly StringUnitBuffer.new n)._last = n := by
  intro n
  induction n with
  | zero => intro _; exact ⟨rfl, rfl⟩
  | succ k ih =>
    intro h
    obtain ⟨h1, h2⟩ := ih (by omega)
    have hfull : ((pushRepeatedly StringUnitBuffer.new k)._last + 1)
        % MAX_STRING_BUFFER_SIZE ≠ (pushRepeatedly StringUnitBuffer.new k)._first := by
      rw [h1, h2]
      simp only [MAX_STRING_BUFFER_SIZE]
      omega
    rw [pushRepeatedly, push_notFull _ _ _ _ hfull]
    refine ⟨h1, ?_⟩
    rw [h2]
    simp only [MAX_STRING_BUFFER_SIZE]
    omega


lemma push_first_eq (b : StringUnitBuffer) (s : String) (r c : Nat) :
    (b.push s r c).2._first = b._first := by
  unfold StringUnitBuffer.push
  split <;> rfl

lemma push_last_lt (b : StringUnitBuffer) (s : String) (r c : Nat)
    (hl : b._last < MAX_STRING_BUFFER_SIZE) :
    (b.push s r c).2._last < MAX_STRING_BUFFER_SIZE := by
  unfold StringUnitBuffer.push
  split
  · exact hl
  · exact Nat.mod_lt _ (by simp [MAX_STRING_BUFFER_SIZE])

lemma popFirst_step_general (b : StringUnitBuffer) (hne : b._last ≠ b._first)
    (hr : 1 < (b._sBuffer b._first)._repeat) :
    b.popFirst = some
      ((({ b with _first := (b._first + 1) % MAX_STRING_BUFFER_SIZE } : StringUnitBuffer).push
          (b._sBuffer b._first)._str ((b._sBuffer b._first)._repeat - 1)
          (b._sBuffer b._first)._colorIndex).2,
        (b._sBuffer b._first)._str, (b._sBuffer b._first)._colorIndex) := by
  have hne' : b.isEmpty = false := by simp [StringUnitBuffer.isEmpty, hne]
  simp [StringUnitBuffer.popFirst, hne', hr, StringUnit.copyString,
    StringUnit.getColorIndex, StringUnit.getRepeat]

end HelperLemmas

section ClaimTheorems

set_option maxRecDepth 8000

/-- C1, counterexample: after pushing an entry "A" with repeatCount 0 and then
"B" with repeatCount 1, `popFirst` copies out ("A", 1) — the head entry with
repeatCount 0 — not the oldest entry with nonzero repeatCount ("B", 2).
`popFirst` never calls `getFirstIndex`, so repeat-0 entries are not skipped. -/
theorem C1_counterexample_no_skip :
    ((((StringUnitBuffer.new.push "A" 0 1).2.push "B" 1 2).2.popFirst).map
      fun r => (r.2.1, r.2.2)) = some ("A", 1) ∧ ("A", 1) ≠ ("B", 2) := by
  constructor
  · decide
  · decide

/-- C1, amended: for every nonempty buffer state, `popFirst` copies out the
text and colorIndex of the entry at `_first` regardless of its repeatCount,
and advances `_first` past it (one step modulo the capacity); repeat-0
skipping is performed only by the separate `getFirstIndex` method. -/
theorem C1_amended_pop_at_head (b : StringUnitBuffer) (hne : b.isEmpty = false) :
    ∃ b', b.popFirst = some (b', (b._sBuffer b._first).copyString,
        (b._sBuffer b._first).getColorIndex) ∧
      b'._first = (b._first + 1) % MAX_STRING_BUFFER_SIZE := by
  have hlf : b._last ≠ b._first := by
    intro h
    simp [StringUnitBuffer.isEmpty, h] at hne
  by_cases hr : 1 < (b._sBuffer b._first)._repeat
  · exact ⟨_, popFirst_step_general b hlf hr, push_first_eq _ _ _ _⟩
  · exact ⟨_, popFirst_last b hlf (by omega), rfl⟩

theorem C1_amended_witness :
    ∃ b', sampleBuffer.popFirst = some (b',
        (sampleBuffer._sBuffer sampleBuffer._first).copyString,
        (sampleBuffer._sBuffer sampleBuffer._first).getColorIndex) ∧
      b'._first = (sampleBuffer._first + 1) % MAX_STRING_BUFFER_SIZE :=
  C1_amended_pop_at_head sampleBuffer (by decide)

/-- C2, counterexample: pushing a 256-character string (exceeding the
255-character maximum) onto the empty buffer returns `true`, not `false`, and
the buffer is changed: `_last` advances to 1 and slot 0 receives the new
repeatCount 2 and colorIndex 3 (only the text is not copied). -/
theorem C2_counterexample_long_string_accepted :
    255 < longStr.length ∧
    (StringUnitBuffer.new.push longStr 2 3).1 = true ∧
    (StringUnitBuffer.new.push longStr 2 3).2._last = 1 ∧
    ((StringUnitBuffer.new.push longStr 2 3).2._sBuffer 0) = ⟨"", 2, 3⟩ := by
  refine ⟨by decide, by decide, by decide, by decide⟩

/-- C2, amended: for every string whose length reaches the maximum
(≥ 256 characters), `push` on a non-full buffer still returns `true` and
advances `_last`; the slot keeps its previous text but receives the new
repeatCount and colorIndex — the producer gets no failure signal. -/
theorem C2_amended_long_string (b : StringUnitBuffer) (str : String) (r c : Nat)
    (hfull : b.isFull = false) (hlen : ¬ str.length < MAX_STRING_LENGTH) :
    (b.push str r c).1 = true ∧
    (b.push str r c).2._last = (b._last + 1) % MAX_STRING_BUFFER_SIZE ∧
    ((b.push str r c).2._sBuffer b._last)._str = (b._sBuffer b._last)._str ∧
    ((b.push str r c).2._sBuffer b._last)._repeat = r ∧
    ((b.push str r c).2._sBuffer b._last)._colorIndex = c := by
  have h : (b._last + 1) % MAX_STRING_BUFFER_SIZE ≠ b._first := by
    intro heq
    simp [StringUnitBuffer.isFull, heq] at hfull
  rw [push_notFull b str r c h]
  simp [StringUnit.setValues, hlen]

theorem C2_amended_witness :
    (StringUnitBuffer.new.push longStr 2 3).1 = true ∧
    (StringUnitBuffer.new.push longStr 2 3).2._last
      = (StringUnitBuffer.new._last + 1) % MAX_STRING_BUFFER_SIZE ∧
    ((StringUnitBuffer.new.push longStr 2 3).2._sBuffer StringUnitBuffer.new._last)._str
      = (StringUnitBuffer.new._sBuffer StringUnitBuffer.new._last)._str ∧
    ((StringUnitBuffer.new.push longStr 2 3).2._sBuffer StringUnitBuffer.new._last)._repeat = 2 ∧
    ((StringUnitBuffer.new.push longStr 2 3).2._sBuffer StringUnitBuffer.new._last)._colorIndex = 3 :=
  C2_amended_long_string StringUnitBuffer.new longStr 2 3 (by decide) (by decide)

/-- C4: in single-threaded execution the re-push inside `popFirst` always
succeeds: because `_first` is advanced before the internal `push`, the buffer
is not full at that instant, and the repeat-decremented entry (same text and
colorIndex, repeatCount one less) is stored at the old `_last` slot with
`_last` advanced — it is never silently dropped by `popFirst` itself. -/
theorem C4_repush_never_dropped (b : StringUnitBuffer) (hne : b.isEmpty = false)
    (hf : b._first < MAX_STRING_BUFFER_SIZE) (hl : b._last < MAX_STRING_BUFFER_SIZE)
    (hr : 1 < (b._sBuffer b._first).getRepeat)
    (hlen : (b._sBuffer b._first)._str.length < MAX_STRING_LENGTH) :
    ({ b with _first := (b._first + 1) % MAX_STRING_BUFFER_SIZE } : StringUnitBuffer).isFull
        = false ∧
    ∃ b', b.popFirst = some (b', (b._sBuffer b._first).copyString,
        (b._sBuffer b._first).getColorIndex) ∧
      b'._last = (b._last + 1) % MAX_STRING_BUFFER_SIZE ∧
      (b'._sBuffer b._last).getRepeat = (b._sBuffer b._first).getRepeat - 1 ∧
      (b'._sBuffer b._last)._str = (b._sBuffer b._first)._str ∧
      (b'._sBuffer b._last).getColorIndex = (b._sBuffer b._first).getColorIndex := by
  have hlf : b._last ≠ b._first := by
    intro h
    simp [StringUnitBuffer.isEmpty, h] at hne
  constructor
  · simp only [StringUnitBuffer.isFull, MAX_STRING_BUFFER_SIZE] at *
    simp only [beq_iff_eq]
    split
    · omega
    · rfl
  · refine ⟨_, popFirst_step b hlf hf hl hr hlen, rfl, ?_, ?_, ?_⟩ <;>
      simp [StringUnit.getRepeat, StringUnit.getColorIndex]

theorem C4_witness :
    ({ sampleBuffer with
        _first := (sampleBuffer._first + 1) % MAX_STRING_BUFFER_SIZE } : StringUnitBuffer).isFull
        = false ∧
    ∃ b', sampleBuffer.popFirst = some (b',
        (sampleBuffer._sBuffer sampleBuffer._first).copyString,
        (sampleBuffer._sBuffer sampleBuffer._first).getColorIndex) ∧
      b'._last = (sampleBuffer._last + 1) % MAX_STRING_BUFFER_SIZE ∧
      (b'._sBuffer sampleBuffer._last).getRepeat
        = (sampleBuffer._sBuffer sampleBuffer._first).getRepeat - 1 ∧
      (b'._sBuffer sampleBuffer._last)._str
        = (sampleBuffer._sBuffer sampleBuffer._first)._str ∧
      (b'._sBuffer sampleBuffer._last).getColorIndex
        = (sampleBuffer._sBuffer sampleBuffer._first).getColorIndex :=
  C4_repush_never_dropped sampleBuffer (by decide) (by decide) (by decide)
    (by decide) (by decide)


/-- C5: `push` returns `false` and leaves the buffer completely unchanged
whenever the buffer is full; otherwise it stores the entry at `_last`
(touching no other slot), advances `_last` by one modulo the capacity,
and returns `true`.  Starting from an empty buffer, each of the first 63
pushes succeeds and the 64th fails. -/
theorem C5_push_full_empty_counting (b : StringUnitBuffer) (s : String) (r c : Nat)
    (hlen : s.length < MAX_STRING_LENGTH) :
    (b.isFull = true → b.push s r c = (false, b)) ∧
    (b.isFull = false →
      (b.push s r c).1 = true ∧
      (b.push s r c).2._last = (b._last + 1) % MAX_STRING_BUFFER_SIZE ∧
      (b.push s r c).2._first = b._first ∧
      (b.push s r c).2._sBuffer b._last = ⟨s, r, c⟩ ∧
      ∀ i, i ≠ b._last → (b.push s r c).2._sBuffer i = b._sBuffer i) ∧
    (∀ n, n < 63 →
      ((pushRepeatedly StringUnitBuffer.new n).push s r c).1 = true) ∧
    ((pushRepeatedly StringUnitBuffer.new 63).push s r c).1 = false := by
  refine ⟨?_, ?_, ?_, ?_⟩
  · intro h
    have heq : (b._last + 1) % MAX_STRING_BUFFER_SIZE = b._first := by
      by_contra hne
      simp [StringUnitBuffer.isFull, hne] at h
    exact push_full b s r c heq
  · intro h
    have hne : (b._last + 1) % MAX_STRING_BUFFER_SIZE ≠ b._first := by
      intro heq
      simp [StringUnitBuffer.isFull, heq] at h
    rw [push_notFull b s r c hne]
    refine ⟨rfl, rfl, rfl, ?_, ?_⟩
    · simp [setValues_short _ _ _ _ hlen]
    · intro i hi
      simp [Function.update_noteq hi]
  · intro n hn
    obtain ⟨h1, h2⟩ := pushRepeatedly_cursors n (by omega)
    have hne : ((pushRepeatedly StringUnitBuffer.new n)._last + 1)
        % MAX_STRING_BUFFER_SIZE ≠ (pushRepeatedly StringUnitBuffer.new n)._first := by
      rw [h1, h2]
      simp only [MAX_STRING_BUFFER_SIZE]
      omega
    rw [push_notFull _ _ _ _ hne]
  · obtain ⟨h1, h2⟩ := pushRepeatedly_cursors 63 (by omega)
    have heq : ((pushRepeatedly StringUnitBuffer.new 63)._last + 1)
        % MAX_STRING_BUFFER_SIZE = (pushRepeatedly StringUnitBuffer.new 63)._first := by
      rw [h1, h2]
      simp [MAX_STRING_BUFFER_SIZE]
    rw [push_full _ _ _ _ heq]

theorem C5_witness :
    ("hello".length < MAX_STRING_LENGTH) ∧
    ((pushRepeatedly StringUnitBuffer.new 62).push "hello" 2 1).1 = true ∧
    ((pushRepeatedly StringUnitBuffer.new 63).push "hello" 2 1).1 = false :=
  ⟨by decide,
    (C5_push_full_empty_counting StringUnitBuffer.new "hello" 2 1 (by decide)).2.2.1
      62 (by omega),
    (C5_push_full_empty_counting StringUnitBuffer.new "hello" 2 1 (by decide)).2.2.2⟩

/-- C6: the full/empty disambiguation invariant: the buffer is empty iff
`_last == _first` and full iff `(_last + 1) % 64 == _first` (one slot kept
unused), and `push`, `popFirst` and `getFirstIndex` all keep `_first` and
`_last` inside `[0, 64)`. -/
theorem C6_cursor_invariants (b : StringUnitBuffer) (s : String) (r c : Nat)
    (hf : b._first < MAX_STRING_BUFFER_SIZE) (hl : b._last < MAX_STRING_BUFFER_SIZE) :
    (b.isEmpty = true ↔ b._last = b._first) ∧
    (b.isFull = true ↔ (b._last + 1) % MAX_STRING_BUFFER_SIZE = b._first) ∧
    ((b.push s r c).2._first < MAX_STRING_BUFFER_SIZE ∧
      (b.push s r c).2._last < MAX_STRING_BUFFER_SIZE) ∧
    (∀ b' t ci, b.popFirst = some (b', t, ci) →
      b'._first < MAX_STRING_BUFFER_SIZE ∧ b'._last < MAX_STRING_BUFFER_SIZE) ∧
    (b.getFirstIndex.1._first < MAX_STRING_BUFFER_SIZE ∧
      b.getFirstIndex.1._last < MAX_STRING_BUFFER_SIZE) := by
  refine ⟨?_, ?_, ?_, ?_, ?_⟩
  · simp [StringUnitBuffer.isEmpty]
  · simp [StringUnitBuffer.isFull]
  · rw [push_first_eq]
    exact ⟨hf, push_last_lt b s r c hl⟩
  · intro b' t ci h
    by_cases he : b.isEmpty = true
    · simp [StringUnitBuffer.popFirst, he] at h
    · have he' : b.isEmpty = false := by
        cases hx : b.isEmpty
        · rfl
        · exact absurd hx he
      have hm : (b._first + 1) % MAX_STRING_BUFFER_SIZE < MAX_STRING_BUFFER_SIZE :=
        Nat.mod_lt _ (by simp [MAX_STRING_BUFFER_SIZE])
      simp only [StringUnitBuffer.popFirst, he', Bool.false_eq_true, if_false,
        Option.some.injEq, Prod.mk.injEq] at h
      obtain ⟨hb', -, -⟩ := h
      subst hb'
      split
      · rw [push_first_eq]
        exact ⟨hm, push_last_lt _ _ _ _ hl⟩
      · exact ⟨hm, hl⟩
  · exact ⟨getFirstIndexAux_lt _ _ _ _ hf, hl⟩

theorem C6_witness :
    (sampleBuffer.isEmpty = true ↔ sampleBuffer._last = sampleBuffer._first) ∧
    (sampleBuffer.isFull = true ↔
      (sampleBuffer._last + 1) % MAX_STRING_BUFFER_SIZE = sampleBuffer._first) ∧
    ((sampleBuffer.push "A" 1 0).2._first < MAX_STRING_BUFFER_SIZE ∧
      (sampleBuffer.push "A" 1 0).2._last < MAX_STRING_BUFFER_SIZE) ∧
    (∀ b' t ci, sampleBuffer.popFirst = some (b', t, ci) →
      b'._first < MAX_STRING_BUFFER_SIZE ∧ b'._last < MAX_STRING_BUFFER_SIZE) ∧
    (sampleBuffer.getFirstIndex.1._first < MAX_STRING_BUFFER_SIZE ∧
      sampleBuffer.getFirstIndex.1._last < MAX_STRING_BUFFER_SIZE) :=
  C6_cursor_invariants sampleBuffer "A" 1 0 (by decide) (by decide)


/-- C3: an entry pushed with repeat = 3 into an (otherwise untouched) empty
buffer is returned by `popFirst` exactly three times in total — the original
pop plus two pops of re-queued copies, the stored repeat counts being 3, 2, 1
— after which the buffer is empty. -/
theorem C3_repeat_three_pops (b : StringUnitBuffer) (s : String) (c : Nat)
    (hempty : b._last = b._first) (hlt : b._first < MAX_STRING_BUFFER_SIZE)
    (hlen : s.length < MAX_STRING_LENGTH) :
    ∃ b1 b2 b3 b4,
      b.push s 3 c = (true, b1) ∧
      (b1._sBuffer b1._first).getRepeat = 3 ∧
      b1.popFirst = some (b2, s, c) ∧
      (b2._sBuffer b2._first).getRepeat = 2 ∧
      b2.popFirst = some (b3, s, c) ∧
      (b3._sBuffer b3._first).getRepeat = 1 ∧
      b3.popFirst = some (b4, s, c) ∧
      b4.isEmpty = true := by
  obtain ⟨sB, f0, f, cur, dms⟩ := b
  dsimp only at hempty hlt
  subst hempty
  have hMS : 0 < MAX_STRING_BUFFER_SIZE := by simp [MAX_STRING_BUFFER_SIZE]
  have h0 : (f + 1) % MAX_STRING_BUFFER_SIZE ≠ f := by
    simp only [MAX_STRING_BUFFER_SIZE] at hlt ⊢
    omega
  have hm1 : (f + 1) % MAX_STRING_BUFFER_SIZE < MAX_STRING_BUFFER_SIZE :=
    Nat.mod_lt _ hMS
  have h1 : ((f + 1) % MAX_STRING_BUFFER_SIZE + 1) % MAX_STRING_BUFFER_SIZE
      ≠ (f + 1) % MAX_STRING_BUFFER_SIZE := by
    simp only [MAX_STRING_BUFFER_SIZE] at hm1 ⊢
    omega
  have hm2 : ((f + 1) % MAX_STRING_BUFFER_SIZE + 1) % MAX_STRING_BUFFER_SIZE
      < MAX_STRING_BUFFER_SIZE := Nat.mod_lt _ hMS
  have h2 : (((f + 1) % MAX_STRING_BUFFER_SIZE + 1) % MAX_STRING_BUFFER_SIZE + 1)
        % MAX_STRING_BUFFER_SIZE
      ≠ ((f + 1) % MAX_STRING_BUFFER_SIZE + 1) % MAX_STRING_BUFFER_SIZE := by
    simp only [MAX_STRING_BUFFER_SIZE] at hm2 ⊢
    omega
  have hpush := push_notFull ⟨sB, f, f, cur, dms⟩ s 3 c h0
  rw [setValues_short _ _ _ _ hlen] at hpush
  dsimp only at hpush
  have hpop1 :
      (⟨Function.update sB f ⟨s, 3, c⟩, f, (f + 1) % MAX_STRING_BUFFER_SIZE, cur,
          dms⟩ : StringUnitBuffer).popFirst
        = some (⟨Function.update (Function.update sB f ⟨s, 3, c⟩)
              ((f + 1) % MAX_STRING_BUFFER_SIZE) ⟨s, 2, c⟩,
            (f + 1) % MAX_STRING_BUFFER_SIZE,
            ((f + 1) % MAX_STRING_BUFFER_SIZE + 1) % MAX_STRING_BUFFER_SIZE, cur, dms⟩,
          s, c) := by
    rw [popFirst_step _ h0 hlt hm1 (by simp) (by simpa using hlen)]
    simp
  have hpop2 :
      (⟨Function.update (Function.update sB f ⟨s, 3, c⟩)
            ((f + 1) % MAX_STRING_BUFFER_SIZE) ⟨s, 2, c⟩,
          (f + 1) % MAX_STRING_BUFFER_SIZE,
          ((f + 1) % MAX_STRING_BUFFER_SIZE + 1) % MAX_STRING_BUFFER_SIZE, cur,
          dms⟩ : StringUnitBuffer).popFirst
        = some (⟨Function.update (Function.update (Function.update sB f ⟨s, 3, c⟩)
                ((f + 1) % MAX_STRING_BUFFER_SIZE) ⟨s, 2, c⟩)
              (((f + 1) % MAX_STRING_BUFFER_SIZE + 1) % MAX_STRING_BUFFER_SIZE)
              ⟨s, 1, c⟩,
            ((f + 1) % MAX_STRING_BUFFER_SIZE + 1) % MAX_STRING_BUFFER_SIZE,
            (((f + 1) % MAX_STRING_BUFFER_SIZE + 1) % MAX_STRING_BUFFER_SIZE + 1)
              % MAX_STRING_BUFFER_SIZE, cur, dms⟩,
          s, c) := by
    rw [popFirst_step _ h1 hm1 hm2 (by simp) (by simpa using hlen)]
    simp
  have hpop3 :
      (⟨Function.update (Function.update (Function.update sB f ⟨s, 3, c⟩)
              ((f + 1) % MAX_STRING_BUFFER_SIZE) ⟨s, 2, c⟩)
            (((f + 1) % MAX_STRING_BUFFER_SIZE + 1) % MAX_STRING_BUFFER_SIZE)
            ⟨s, 1, c⟩,
          ((f + 1) % MAX_STRING_BUFFER_SIZE + 1) % MAX_STRING_BUFFER_SIZE,
          (((f + 1) % MAX_STRING_BUFFER_SIZE + 1) % MAX_STRING_BUFFER_SIZE + 1)
            % MAX_STRING_BUFFER_SIZE, cur, dms⟩ : StringUnitBuffer).popFirst
        = some (⟨Function.update (Function.update (Function.update sB f ⟨s, 3, c⟩)
                ((f + 1) % MAX_STRING_BUFFER_SIZE) ⟨s, 2, c⟩)
              (((f + 1) % MAX_STRING_BUFFER_SIZE + 1) % MAX_STRING_BUFFER_SIZE)
              ⟨s, 1, c⟩,
            (((f + 1) % MAX_STRING_BUFFER_SIZE + 1) % MAX_STRING_BUFFER_SIZE + 1)
              % MAX_STRING_BUFFER_SIZE,
            (((f + 1) % MAX_STRING_BUFFER_SIZE + 1) % MAX_STRING_BUFFER_SIZE + 1)
              % MAX_STRING_BUFFER_SIZE, cur, dms⟩,
          s, c) := by
    rw [popFirst_last _ h2 (by simp)]
    simp
  exact ⟨_, _, _, _, hpush, by simp [StringUnit.getRepeat], hpop1,
    by simp [StringUnit.getRepeat], hpop2, by simp [StringUnit.getRepeat], hpop3,
    by simp [StringUnitBuffer.isEmpty]⟩

theorem C3_witness :
    StringUnitBuffer.new._last = StringUnitBuffer.new._first ∧
    StringUnitBuffer.new._first < MAX_STRING_BUFFER_SIZE ∧
    "hi".length < MAX_STRING_LENGTH ∧
    (∃ b1 b2 b3 b4,
      StringUnitBuffer.new.push "hi" 3 7 = (true, b1) ∧
      (b1._sBuffer b1._first).getRepeat = 3 ∧
      b1.popFirst = some (b2, "hi", 7) ∧
      (b2._sBuffer b2._first).getRepeat = 2 ∧
      b2.popFirst = some (b3, "hi", 7) ∧
      (b3._sBuffer b3._first).getRepeat = 1 ∧
      b3.popFirst = some (b4, "hi", 7) ∧
      b4.isEmpty = true) :=
  ⟨rfl, by decide, by decide,
    C3_repeat_three_pops StringUnitBuffer.new "hi" 7 rfl (by decide) (by decide)⟩

/-- C7: `popFirst` on an empty buffer signals "empty": it returns `none`
(the source returns `false`), producing no successor state — so neither the
cursors, nor any stored entry, nor the caller's output buffer and colorIndex
are written. -/
theorem C7_popFirst_empty_noop (b : StringUnitBuffer) (h : b.isEmpty = true) :
    b.popFirst = none := by
  simp [StringUnitBuffer.popFirst, h]

theorem C7_witness : StringUnitBuffer.new.popFirst = none :=
  C7_popFirst_empty_noop StringUnitBuffer.new (by decide)

/-- C8: for every `StringUnit` state and every argument, `setRepeat` is a
no-op — the stored repeat count (and the whole unit) is unchanged, since the
source assigns the `_repeat` field to itself. -/
theorem C8_setRepeat_noop (u : StringUnit) (r : Nat) :
    (u.setRepeat r).getRepeat = u.getRepeat ∧ u.setRepeat r = u :=
  ⟨rfl, rfl⟩

/-- C9: `nextPalette` maps a valid palette index i to `(i + 1) % numPalettes`,
which is again valid, and `numPalettes` = 5 successive applications return both
the index and the gradient delivered by `getPalette` to their starting
values. -/
theorem C9_palette_cycle (d : DisplayMatrix) (h : d._paletteIndex < numPalettes) :
    d.nextPalette._paletteIndex = (d._paletteIndex + 1) % numPalettes ∧
    d.nextPalette._paletteIndex < numPalettes ∧
    (d.nextPalette.nextPalette.nextPalette.nextPalette.nextPalette)._paletteIndex
      = d._paletteIndex ∧
    (d.nextPalette.nextPalette.nextPalette.nextPalette.nextPalette).getPalette
      = d.getPalette := by
  have hn : numPalettes = 5 := rfl
  have hidx : (d.nextPalette.nextPalette.nextPalette.nextPalette.nextPalette)._paletteIndex
      = d._paletteIndex := by
    simp only [DisplayMatrix.nextPalette, hn] at *
    omega
  refine ⟨rfl, ?_, hidx, ?_⟩
  · simp only [DisplayMatrix.nextPalette, hn] at *
    omega
  · simp only [DisplayMatrix.getPalette, hidx]

theorem C9_witness :
    sampleMatrix._paletteIndex < numPalettes ∧
    (sampleMatrix.nextPalette._paletteIndex
        = (sampleMatrix._paletteIndex + 1) % numPalettes ∧
      sampleMatrix.nextPalette._paletteIndex < numPalettes ∧
      (sampleMatrix.nextPalette.nextPalette.nextPalette.nextPalette.nextPalette)._paletteIndex
        = sampleMatrix._paletteIndex ∧
      (sampleMatrix.nextPalette.nextPalette.nextPalette.nextPalette.nextPalette).getPalette
        = sampleMatrix.getPalette) :=
  ⟨by decide, C9_palette_cycle sampleMatrix (by decide)⟩

/-- C10: `displayingText` returns `true` if and only if the active-text flag
`_textInBuffer` is set or the pending string queue is non-empty. -/
theorem C10_displayingText_iff (d : DrawText) :
    d.displayingText = true ↔
      (d._textInBuffer = true ∨ d._stringBuffer.isEmpty = false) := by
  cases htx : d._textInBuffer <;> cases he : d._stringBuffer.isEmpty <;>
    simp [DrawText.displayingText, htx, he]

end ClaimTheorems

end LedHandbag
